import Mathlib

/-!
A shallow embedding of the address-change case-processing workflow
(`src/main.py`): an in-memory store of cases keyed by generated identifiers,
workflow step operations that read and mutate a case record, and a
human-in-the-loop override operation.

Modelling conventions:
* Python dicts become association lists (`List (String × _)`); `lookupKey`
  is dict access, `setKey` is key assignment (overwrite in place, or append
  for a fresh key), matching insertion-ordered Python dict semantics.
* Python `Any`-valued payload entries become the `Value` type (the source
  stores strings and one boolean).
* Confidence scores (float literals 0.73, 0.9 compared against 0.8) become
  exact rationals; at these literals the float comparisons of the source and
  the rational ones agree.
* A Python `KeyError` / `TypeError` raised before any mutation becomes an
  `Except.error` result; every operation mirrors the source's evaluation
  order, so an error is returned before any state is built.
* The wall-clock timestamp field of audit entries (`datetime.utcnow()`) is
  abstracted away; audit order is list order.
-/

namespace AddressChange

/-- A value stored in a case's `Any`-valued dict payloads. -/
inductive Value where
  | str (s : String)
  | bool (b : Bool)
deriving DecidableEq, Repr

/-- The `details` payload of an audit entry, one constructor per call site
of `_audit` in the source. -/
inductive Details where
  | text (s : String)
  | lowConf (fields : List String)
  | completeness (status : String) (lowConf : List String)
  | hitl (old_address : Value) (corrected_address : String) (source : String)
  | identity (score : ℚ) (status : String)
  | landlord (status : String)
  | canon (status : String)
  | rules (status : String)
  | registry (status : String)
  | cert (path : String)
  | notified (sent_to : String)
deriving DecidableEq, Repr

/-- One audit record (`_audit` appends `{"ts", "event", "details"}`; the
timestamp is abstracted away). -/
structure AuditEntry where
  event : String
  details : Details
deriving DecidableEq, Repr

/-- The intake payload of `ingest_case` (shape of `DEMO_PAYLOAD`). -/
structure IntakeData where
  citizen_name : String
  citizen_dob : String
  old_address : String
  new_address_raw : String
  move_in_date_raw : String
  landlord_doc_path : String
  id_doc_path : String
deriving DecidableEq, Repr

/-- The OCR result stored at `case["ocr"]`: extracted fields plus a parallel
confidence map. -/
structure Extraction where
  fields : List (String × Value)
  confidence : List (String × ℚ)
deriving DecidableEq, Repr

/-- One case record, the dict created by `ingest_case`. -/
structure Case where
  data : IntakeData
  ocr : Option Extraction
  status : String
  audit : List AuditEntry
  overrides : List (String × Value)
  working : List (String × Value)
deriving DecidableEq, Repr

/-- The global in-memory store `cases` (a Python dict keyed by case id). -/
def Store : Type := List (String × Case)

instance : DecidableEq Store := by unfold Store; infer_instance

/-- Python exceptions surfaced by the operations: `KeyError` from a missing
dict key, `TypeError` from subscripting `None`. -/
inductive Err where
  | keyError (key : String)
  | typeError (msg : String)
deriving DecidableEq, Repr

/-- Dict read: first entry with the given key. -/
def lookupKey {α : Type} : List (String × α) → String → Option α
  | [], _ => none
  | (k', v) :: rest, k => if k' = k then some v else lookupKey rest k

/-- Overwrite every entry carrying the given key, keeping positions. -/
def replaceKey {α : Type} : List (String × α) → String → α → List (String × α)
  | [], _, _ => []
  | (k', w) :: rest, k, v =>
    if k' = k then (k, v) :: replaceKey rest k v
    else (k', w) :: replaceKey rest k v

/-- Dict assignment `d[k] = v`: overwrite in place when the key is present,
append otherwise (insertion-ordered Python dict semantics). -/
def setKey {α : Type} (d : List (String × α)) (k : String) (v : α) :
    List (String × α) :=
  if (lookupKey d k).isSome then replaceKey d k v else d ++ [(k, v)]

/-- Zero-padded rendering of `%04d` used in generated case identifiers. -/
def pad4 (n : Nat) : String :=
  let s := toString n
  if s.length < 4 then String.mk (List.replicate (4 - s.length) '0') ++ s else s

/-- Result of `ingest_case`. -/
structure IngestOut where
  case_id : String
  message : String
deriving DecidableEq, Repr

/-- Result of `run_ocr_extract`. -/
structure ExtractOut where
  extracted_fields : List (String × Value)
  confidence : List (String × ℚ)
deriving DecidableEq, Repr

/-- Result of `check_completeness`. -/
structure CompOut where
  status : String
  low_conf_fields : List String
deriving DecidableEq, Repr

/-- Result of `resolve_hitl_update_address`. -/
structure HitlOut where
  message : String
  case_id : String
  old_address : Value
  new_address : String
  next_step_hint : String
deriving DecidableEq, Repr

/-- Result of `match_registry_identity`. -/
structure MatchOut where
  status : String
  score : ℚ
  hitl_required : Bool
deriving DecidableEq, Repr

/-- Result of a step reporting only a status and a hitl flag. -/
structure StepOut where
  status : String
  hitl_required : Bool
deriving DecidableEq, Repr

/-- The canonical address record built by `canonicalize_address`. -/
structure Canonical where
  input : Value
  street : String
  house_number : String
  postal_code : String
  city : String
deriving DecidableEq, Repr

/-- Result of `canonicalize_address`. -/
structure CanonOut where
  status : String
  canonical_address : Canonical
  hitl_required : Bool
deriving DecidableEq, Repr

/-- Result of `check_business_rules`. -/
structure RulesOut where
  status : String
  violations : List String
  hitl_required : Bool
deriving DecidableEq, Repr

/-- Result of `generate_certificate`. -/
structure CertOut where
  status : String
  certificate_path : String
deriving DecidableEq, Repr

/-- Result of `notify_citizen`. -/
structure NotifyOut where
  status : String
  email : String
deriving DecidableEq, Repr

/-- Result of `close_case_and_audit`. -/
structure CloseOut where
  status : String
  audit_log : List AuditEntry
deriving DecidableEq, Repr

/-- `ingest_case`: allocate `CASE-%04d` from the current store size, store a
fresh record, audit the creation (`_audit` appends to the just-stored
record's empty audit list). Always succeeds. -/
def ingest_case (s : Store) (data : IntakeData) : Store × IngestOut :=
  let case_id := "CASE-" ++ pad4 (s.length + 1)
  let c : Case :=
    { data := data
      ocr := none
      status := "created"
      audit := [⟨"ingest_case", .text "Case created with citizen data."⟩]
      overrides := []
      working := [] }
  (setKey s case_id c, ⟨case_id, "Case created."⟩)

/-- The `extracted` dict built by `run_ocr_extract` from the intake data. -/
def extractedFields (d : IntakeData) : List (String × Value) :=
  [("citizen_name", .str d.citizen_name),
   ("citizen_dob", .str d.citizen_dob),
   ("old_address", .str d.old_address),
   ("new_address", .str d.new_address_raw),
   ("move_in_date", .str d.move_in_date_raw),
   ("landlord_signature_found", .bool true)]

/-- The hard-coded `confidence` dict of `run_ocr_extract`. -/
def ocrConfidence : List (String × ℚ) :=
  [("new_address", mkRat 73 100), ("move_in_date", mkRat 9 10)]

/-- `run_ocr_extract`: `cases[case_id]` (KeyError when absent), then set
`ocr` and re-seed `working` wholesale from the freshly extracted
`new_address` and `move_in_date` (which equal the raw intake values), then
audit. -/
def run_ocr_extract (s : Store) (case_id : String) :
    Except Err (Store × ExtractOut) :=
  match lookupKey s case_id with
  | none => .error (.keyError case_id)
  | some c =>
    let extracted := extractedFields c.data
    let confidence := ocrConfidence
    let c :=
      { c with
        ocr := some ⟨extracted, confidence⟩
        working := [("new_address", .str c.data.new_address_raw),
                    ("move_in_date", .str c.data.move_in_date_raw)] }
    let c :=
      { c with audit := c.audit ++ [⟨"run_ocr_extract", .lowConf ["new_address"]⟩] }
    .ok (setKey s case_id c, ⟨extracted, confidence⟩)

/-- `check_completeness`: `cases[case_id]["ocr"]` (KeyError when the case is
absent, TypeError when `ocr` is `None`), collect the fields whose confidence
is below 0.8, derive the status from list truthiness, audit, return. -/
def check_completeness (s : Store) (case_id : String) :
    Except Err (Store × CompOut) :=
  match lookupKey s case_id with
  | none => .error (.keyError case_id)
  | some c =>
    match c.ocr with
    | none => .error (.typeError "NoneType is not subscriptable")
    | some ocr =>
      let low_conf := (ocr.confidence.filter (fun kv => kv.2 < mkRat 4 5)).map Prod.fst
      let status := if low_conf.isEmpty then "ok" else "hitl_required"
      let c :=
        { c with
          audit := c.audit ++ [⟨"check_completeness", .completeness status low_conf⟩] }
      .ok (setKey s case_id c, ⟨status, low_conf⟩)

/-- `resolve_hitl_update_address`: `cases[case_id]` (KeyError when absent),
read the pre-image `working["new_address"]` (KeyError when absent, before
any write), then set both `working["new_address"]` and
`overrides["new_address"]` to the corrected value, audit, return pre- and
post-image. -/
def resolve_hitl_update_address (s : Store) (case_id : String)
    (corrected_address : String) : Except Err (Store × HitlOut) :=
  match lookupKey s case_id with
  | none => .error (.keyError case_id)
  | some c =>
    match lookupKey c.working "new_address" with
    | none => .error (.keyError "new_address")
    | some old_addr =>
      let c :=
        { c with
          working := setKey c.working "new_address" (.str corrected_address)
          overrides := setKey c.overrides "new_address" (.str corrected_address) }
      let c :=
        { c with
          audit := c.audit ++
            [⟨"resolve_hitl_update_address",
              .hitl old_addr corrected_address "human_officer"⟩] }
      .ok (setKey s case_id c,
           ⟨"Address override applied", case_id, old_addr, corrected_address,
            "You can now continue with match_registry_identity, etc."⟩)

/-- `match_registry_identity`: fixed score 0.94, status from the 0.9
threshold; the first store access is inside `_audit` (KeyError when the case
is absent, before any mutation). -/
def match_registry_identity (s : Store) (case_id : String) :
    Except Err (Store × MatchOut) :=
  match lookupKey s case_id with
  | none => .error (.keyError case_id)
  | some c =>
    let score : ℚ := mkRat 94 100
    let status := if score > mkRat 9 10 then "match" else "mismatch"
    let c := { c with audit := c.audit ++ [⟨"match_registry_identity", .identity score status⟩] }
    .ok (setKey s case_id c, ⟨status, score, decide (status ≠ "match")⟩)

/-- `validate_landlord_confirmation`: fixed `valid = True`; store access only
inside `_audit`. -/
def validate_landlord_confirmation (s : Store) (case_id : String) :
    Except Err (Store × StepOut) :=
  match lookupKey s case_id with
  | none => .error (.keyError case_id)
  | some c =>
    let valid := true
    let status := if valid then "valid" else "invalid"
    let c := { c with audit := c.audit ++ [⟨"validate_landlord_confirmation", .landlord status⟩] }
    .ok (setKey s case_id c, ⟨status, !valid⟩)

/-- `canonicalize_address`: reads `working["new_address"]` first (KeyError
when the case or the working field is absent), builds a fixed canonical
record, audits. -/
def canonicalize_address (s : Store) (case_id : String) :
    Except Err (Store × CanonOut) :=
  match lookupKey s case_id with
  | none => .error (.keyError case_id)
  | some c =>
    match lookupKey c.working "new_address" with
    | none => .error (.keyError "new_address")
    | some input_addr =>
      let canonical : Canonical :=
        ⟨input_addr, "MusterstraÃŸe", "12A", "12345", "Kaiserslautern"⟩
      let ambiguous := false
      let status := if ambiguous then "ambiguous" else "ok"
      let c := { c with audit := c.audit ++ [⟨"canonicalize_address", .canon status⟩] }
      .ok (setKey s case_id c, ⟨status, canonical, ambiguous⟩)

/-- `check_business_rules`: fixed empty violation list; store access only
inside `_audit`. -/
def check_business_rules (s : Store) (case_id : String) :
    Except Err (Store × RulesOut) :=
  match lookupKey s case_id with
  | none => .error (.keyError case_id)
  | some c =>
    let violations : List String := []
    let status := if violations.isEmpty then "pass" else "fail"
    let c := { c with audit := c.audit ++ [⟨"check_business_rules", .rules status⟩] }
    .ok (setKey s case_id c, ⟨status, violations, !violations.isEmpty⟩)

/-- `update_registry`: fixed `conflict = False`; store access only inside
`_audit`. -/
def update_registry (s : Store) (case_id : String) :
    Except Err (Store × StepOut) :=
  match lookupKey s case_id with
  | none => .error (.keyError case_id)
  | some c =>
    let conflict := false
    let status := if conflict then "conflict" else "updated"
    let c := { c with audit := c.audit ++ [⟨"update_registry", .registry status⟩] }
    .ok (setKey s case_id c, ⟨status, conflict⟩)

/-- `generate_certificate`: builds a path from the case id; store access only
inside `_audit`. -/
def generate_certificate (s : Store) (case_id : String) :
    Except Err (Store × CertOut) :=
  match lookupKey s case_id with
  | none => .error (.keyError case_id)
  | some c =>
    let path := "/tmp/" ++ case_id ++ "_meldebescheinigung.pdf"
    let c := { c with audit := c.audit ++ [⟨"generate_certificate", .cert path⟩] }
    .ok (setKey s case_id c, ⟨"generated", path⟩)

/-- `notify_citizen`: store access only inside `_audit`. -/
def notify_citizen (s : Store) (case_id : String) :
    Except Err (Store × NotifyOut) :=
  match lookupKey s case_id with
  | none => .error (.keyError case_id)
  | some c =>
    let c := { c with audit := c.audit ++ [⟨"notify_citizen", .notified "citizen@example.com"⟩] }
    .ok (setKey s case_id c, ⟨"sent", "citizen@example.com"⟩)

/-- `close_case_and_audit`: grabs the case's live audit list, appends the
close entry through `_audit`, and returns the same (aliased) list, so the
returned log already contains the close entry. The stored record's `status`
field is never written. -/
def close_case_and_audit (s : Store) (case_id : String) :
    Except Err (Store × CloseOut) :=
  match lookupKey s case_id with
  | none => .error (.keyError case_id)
  | some c =>
    let newAudit := c.audit ++ [⟨"close_case_and_audit", .text "Case closed."⟩]
    let c := { c with audit := newAudit }
    .ok (setKey s case_id c, ⟨"closed", newAudit⟩)

/-- One invocation of a workflow tool, for building call traces. -/
inductive Cmd where
  | ingest (data : IntakeData)
  | extract (case_id : String)
  | checkComp (case_id : String)
  | resolveHitl (case_id : String) (corrected_address : String)
  | matchIdent (case_id : String)
  | validateLandlord (case_id : String)
  | canonAddr (case_id : String)
  | checkRules (case_id : String)
  | updateReg (case_id : String)
  | genCert (case_id : String)
  | notifyCit (case_id : String)
  | closeCase (case_id : String)
deriving DecidableEq, Repr

/-- Apply one call to the store; a raised error leaves the store as it was
(every operation errors before building any new state). -/
def applyCmd (s : Store) : Cmd → Store
  | .ingest d => (ingest_case s d).1
  | .extract id => match run_ocr_extract s id with
    | .ok (s', _) => s' | .error _ => s
  | .checkComp id => match check_completeness s id with
    | .ok (s', _) => s' | .error _ => s
  | .resolveHitl id v => match resolve_hitl_update_address s id v with
    | .ok (s', _) => s' | .error _ => s
  | .matchIdent id => match match_registry_identity s id with
    | .ok (s', _) => s' | .error _ => s
  | .validateLandlord id => match validate_landlord_confirmation s id with
    | .ok (s', _) => s' | .error _ => s
  | .canonAddr id => match canonicalize_address s id with
    | .ok (s', _) => s' | .error _ => s
  | .checkRules id => match check_business_rules s id with
    | .ok (s', _) => s' | .error _ => s
  | .updateReg id => match update_registry s id with
    | .ok (s', _) => s' | .error _ => s
  | .genCert id => match generate_certificate s id with
    | .ok (s', _) => s' | .error _ => s
  | .notifyCit id => match notify_citizen s id with
    | .ok (s', _) => s' | .error _ => s
  | .closeCase id => match close_case_and_audit s id with
    | .ok (s', _) => s' | .error _ => s

/-- The store reached by running a trace of calls from the empty store. -/
def runCmds (cmds : List Cmd) : Store :=
  cmds.foldl applyCmd ([] : Store)

/-- The module-level `DEMO_PAYLOAD` of the source. -/
def demoPayload : IntakeData :=
  { citizen_name := "John Doe"
    citizen_dob := "1998-04-12"
    old_address := "Altstrasse 5, 67655 Kaiserslautern"
    new_address_raw := "Musterstr 12a KL 12345"
    move_in_date_raw := "2025-10-01"
    landlord_doc_path := "/tmp/landlord_confirmation.pdf"
    id_doc_path := "/tmp/passport_scan.pdf" }

/-- Observer: the stored working value of a field of a case. -/
def workingVal (s : Store) (id f : String) : Option Value :=
  (lookupKey s id).bind fun c => lookupKey c.working f

/-- Observer: the stored override value of a field of a case. -/
def overrideVal (s : Store) (id f : String) : Option Value :=
  (lookupKey s id).bind fun c => lookupKey c.overrides f

/-- Observer: the extracted value of a field of a case's OCR result. -/
def extractionVal (s : Store) (id f : String) : Option Value :=
  (lookupKey s id).bind fun c => c.ocr.bind fun e => lookupKey e.fields f

/-- Observer: the stored status of a case. -/
def statusOf (s : Store) (id : String) : Option String :=
  (lookupKey s id).map Case.status

/-- Observer: the stored audit log of a case (empty when the case is
absent). -/
def auditOf (s : Store) (id : String) : List AuditEntry :=
  ((lookupKey s id).map Case.audit).getD []

/-- The overlay property for one field of a case: the working value is the
extracted value when no override is recorded, and the override when one is
recorded — or the freshly extracted value, when extraction re-ran after the
override and discarded the overlay. -/
def overlayAfterExtraction (c : Case) (e : Extraction) (f : String) : Prop :=
  (lookupKey c.overrides f = none →
    lookupKey c.working f = lookupKey e.fields f) ∧
  ∀ v, lookupKey c.overrides f = some v →
    lookupKey c.working f = some v ∨
    lookupKey c.working f = lookupKey e.fields f

/-- The overlay property over all extraction-seeded fields of one case. -/
def overlayOK (c : Case) : Prop :=
  ∀ e, c.ocr = some e →
    ∀ f, f = "new_address" ∨ f = "move_in_date" →
      overlayAfterExtraction c e f

/-- The overlay property for every case of a store. -/
def storeOK (s : Store) : Prop :=
  ∀ id c, lookupKey s id = some c → overlayOK c

/-- The corrected address supplied by the officer in the demo scenario. -/
def correctedAddr : String := "Musterstraße 12a, 12345 Kaiserslautern"

/-- The case record right after `ingest_case` on the demo payload. -/
def caseCreated : Case :=
  { data := demoPayload
    ocr := none
    status := "created"
    audit := [⟨"ingest_case", .text "Case created with citizen data."⟩]
    overrides := []
    working := [] }

/-- The store right after `ingest_case` on the demo payload. -/
def storeCreated : Store := (ingest_case [] demoPayload).1

/-- The OCR record `run_ocr_extract` attaches to the demo case. -/
def extrDemo : Extraction := ⟨extractedFields demoPayload, ocrConfidence⟩

/-- The demo case after ingest followed by extraction. -/
def caseExtracted : Case :=
  { data := demoPayload
    ocr := some extrDemo
    status := "created"
    audit := [⟨"ingest_case", .text "Case created with citizen data."⟩,
              ⟨"run_ocr_extract", .lowConf ["new_address"]⟩]
    overrides := []
    working := [("new_address", .str "Musterstr 12a KL 12345"),
                ("move_in_date", .str "2025-10-01")] }

/-- The store after ingest followed by extraction of the demo case. -/
def storeExtracted : Store := applyCmd storeCreated (.extract "CASE-0001")

/-- The store after ingest, extraction and `check_completeness`. -/
def storeChecked : Store := applyCmd storeExtracted (.checkComp "CASE-0001")

/-- The store after the full demo scenario: ingest, extraction,
completeness check, then the HITL override with the corrected address. -/
def storeResolved : Store :=
  applyCmd storeChecked (.resolveHitl "CASE-0001" correctedAddr)

/-- The store after the demo scenario followed by a second
`run_ocr_extract` on the same case (re-extraction after an override). -/
def storeReextracted : Store := applyCmd storeResolved (.extract "CASE-0001")

/-- The successful update `resolve_hitl_update_address` performs on a case
whose working pre-image for new_address is `w`: overwrite working and
overrides with the corrected value and append the hitl audit entry. -/
def hitlUpdate (c : Case) (w : Value) (v : String) : Case :=
  { c with
    working := setKey c.working "new_address" (.str v)
    overrides := setKey c.overrides "new_address" (.str v)
    audit := c.audit ++
      [⟨"resolve_hitl_update_address", .hitl w v "human_officer"⟩] }

/-- The audit entry appended by `close_case_and_audit`. -/
def closeEntry : AuditEntry := ⟨"close_case_and_audit", .text "Case closed."⟩

/-- Statement body: every operation taking a case identifier errors on an
unknown identifier and leaves the store untouched. -/
def rejectsUnknownId (s : Store) (id v : String) : Prop :=
  run_ocr_extract s id = Except.error (.keyError id) ∧
  check_completeness s id = Except.error (.keyError id) ∧
  resolve_hitl_update_address s id v = Except.error (.keyError id) ∧
  match_registry_identity s id = Except.error (.keyError id) ∧
  validate_landlord_confirmation s id = Except.error (.keyError id) ∧
  canonicalize_address s id = Except.error (.keyError id) ∧
  check_business_rules s id = Except.error (.keyError id) ∧
  update_registry s id = Except.error (.keyError id) ∧
  generate_certificate s id = Except.error (.keyError id) ∧
  notify_citizen s id = Except.error (.keyError id) ∧
  close_case_and_audit s id = Except.error (.keyError id) ∧
  applyCmd s (.extract id) = s ∧
  applyCmd s (.checkComp id) = s ∧
  applyCmd s (.resolveHitl id v) = s ∧
  applyCmd s (.matchIdent id) = s ∧
  applyCmd s (.validateLandlord id) = s ∧
  applyCmd s (.canonAddr id) = s ∧
  applyCmd s (.checkRules id) = s ∧
  applyCmd s (.updateReg id) = s ∧
  applyCmd s (.genCert id) = s ∧
  applyCmd s (.notifyCit id) = s ∧
  applyCmd s (.closeCase id) = s

/-- Statement body: `check_completeness` succeeds and reports
`hitl_required` exactly when some confidence is below the 0.8 threshold,
with `low_conf_fields` exactly the below-threshold fields. -/
def completenessMatchesThreshold (s : Store) (id : String) (e : Extraction) :
    Prop :=
  ∃ s' st low, check_completeness s id = Except.ok (s', ⟨st, low⟩) ∧
    (st = "hitl_required" ∨ st = "ok") ∧
    (st = "hitl_required" ↔ ∃ p ∈ e.confidence, p.2 < mkRat 4 5) ∧
    (∀ f, f ∈ low ↔ ∃ q, (f, q) ∈ e.confidence ∧ q < mkRat 4 5) ∧
    low = (e.confidence.filter (fun p => p.2 < mkRat 4 5)).map Prod.fst

/-- Statement body: two successive overrides with values v1 then v2 leave
only v2 in `working` and `overrides`, with both audit entries appended in
call order. -/
def lastOverrideWins (s : Store) (id v1 v2 : String) (c : Case) (w : Value) :
    Prop :=
  ∃ s1 o1 s2 o2 c2,
    resolve_hitl_update_address s id v1 = Except.ok (s1, o1) ∧
    resolve_hitl_update_address s1 id v2 = Except.ok (s2, o2) ∧
    lookupKey s2 id = some c2 ∧
    lookupKey c2.working "new_address" = some (.str v2) ∧
    lookupKey c2.overrides "new_address" = some (.str v2) ∧
    c2.audit = c.audit ++
      [⟨"resolve_hitl_update_address", .hitl w v1 "human_officer"⟩,
       ⟨"resolve_hitl_update_address", .hitl (.str v1) v2 "human_officer"⟩] ∧
    o1.old_address = w ∧ o2.old_address = .str v1

/-- Statement body: overriding twice with the same value changes nothing
beyond appending a second audit entry. -/
def sameOverrideTwiceNoOp (s : Store) (id v : String) (c : Case) (w : Value) :
    Prop :=
  ∃ s1 o1 s2 o2 c1 c2,
    resolve_hitl_update_address s id v = Except.ok (s1, o1) ∧
    resolve_hitl_update_address s1 id v = Except.ok (s2, o2) ∧
    lookupKey s1 id = some c1 ∧
    lookupKey s2 id = some c2 ∧
    c2 = { c1 with audit := c1.audit ++
      [⟨"resolve_hitl_update_address", .hitl (.str v) v "human_officer"⟩] } ∧
    c1.audit = c.audit ++
      [⟨"resolve_hitl_update_address", .hitl w v "human_officer"⟩]

/-- Statement body: closing returns a payload with status closed and the
appended audit log, but the stored record keeps its previous status. -/
def closeKeepsStoredStatus (s : Store) (id : String) (c : Case) : Prop :=
  close_case_and_audit s id =
    Except.ok (setKey s id { c with audit := c.audit ++ [closeEntry] },
               ⟨"closed", c.audit ++ [closeEntry]⟩) ∧
  lookupKey (setKey s id { c with audit := c.audit ++ [closeEntry] }) id =
    some { c with audit := c.audit ++ [closeEntry] } ∧
  statusOf (setKey s id { c with audit := c.audit ++ [closeEntry] }) id =
    some c.status

/-- Statement body: the audit log returned by closing is the case's stored
(post-append) audit list and ends with the close entry itself. -/
def closeReturnsLiveAudit (s : Store) (id : String) (c : Case) : Prop :=
  ∃ s' out, close_case_and_audit s id = Except.ok (s', out) ∧
    out.audit_log = c.audit ++ [closeEntry] ∧
    (∃ c', lookupKey s' id = some c' ∧ out.audit_log = c'.audit) ∧
    out.audit_log.getLast? = some closeEntry

/-- Statement body: the override operation on a case whose working dict has
no new_address key fails on the pre-image read and mutates nothing. -/
def hitlRejectedBeforeExtraction (s : Store) (id v : String) : Prop :=
  resolve_hitl_update_address s id v = Except.error (.keyError "new_address") ∧
  applyCmd s (.resolveHitl id v) = s

/-! ## Helper lemmas on dict operations -/

theorem lookupKey_replaceKey_eq {α : Type} (d : List (String × α))
    (k : String) (v : α) (hs : (lookupKey d k).isSome) :
    lookupKey (replaceKey d k v) k = some v := by
  induction d with
  | nil => simp [lookupKey] at hs
  | cons p rest ih =>
    obtain ⟨k₁, w⟩ := p
    by_cases hk : k₁ = k
    · simp [replaceKey, hk, lookupKey]
    · simp only [lookupKey, if_neg hk] at hs
      simp [replaceKey, hk, lookupKey, ih hs]

theorem lookupKey_replaceKey_ne {α : Type} (d : List (String × α))
    (k k' : String) (v : α) (h : k' ≠ k) :
    lookupKey (replaceKey d k v) k' = lookupKey d k' := by
  induction d with
  | nil => rfl
  | cons p rest ih =>
    obtain ⟨k₁, w⟩ := p
    by_cases hk : k₁ = k
    · subst hk
      have hne : ¬ (k₁ = k') := fun hh => h hh.symm
      simp [replaceKey, lookupKey, hne, ih]
    · by_cases hk' : k₁ = k'
      · simp [replaceKey, hk, lookupKey, hk', h]
      · simp [replaceKey, hk, lookupKey, hk', ih]

theorem lookupKey_append_single {α : Type} (d : List (String × α))
    (k k' : String) (v : α) (h : k' ≠ k) :
    lookupKey (d ++ [(k, v)]) k' = lookupKey d k' := by
  induction d with
  | nil =>
    have hne : ¬ (k = k') := fun hh => h hh.symm
    simp [lookupKey, hne]
  | cons p rest ih =>
    obtain ⟨k₁, w⟩ := p
    by_cases hk' : k₁ = k'
    · simp [lookupKey, hk']
    · simp [lookupKey, hk', ih]

theorem lookupKey_append_self {α : Type} (d : List (String × α))
    (k : String) (v : α) (h : lookupKey d k = none) :
    lookupKey (d ++ [(k, v)]) k = some v := by
  induction d with
  | nil => simp [lookupKey]
  | cons p rest ih =>
    obtain ⟨k₁, w⟩ := p
    by_cases hk : k₁ = k
    · simp [lookupKey, hk] at h
    · simp only [lookupKey, if_neg hk] at h
      simp [lookupKey, hk, ih h]

theorem replaceKey_append_self {α : Type} (d : List (String × α))
    (k : String) (v : α) (h : lookupKey d k = none) :
    replaceKey (d ++ [(k, v)]) k v = d ++ [(k, v)] := by
  induction d with
  | nil => simp [replaceKey]
  | cons p rest ih =>
    obtain ⟨k₁, w⟩ := p
    by_cases hk : k₁ = k
    · simp [lookupKey, hk] at h
    · simp only [lookupKey, if_neg hk] at h
      simp [replaceKey, hk, ih h]

theorem lookupKey_setKey_eq {α : Type} (d : List (String × α)) (k : String)
    (v : α) : lookupKey (setKey d k v) k = some v := by
  unfold setKey
  by_cases hs : (lookupKey d k).isSome
  · rw [if_pos hs]
    exact lookupKey_replaceKey_eq d k v hs
  · rw [if_neg hs]
    exact lookupKey_append_self d k v (Option.not_isSome_iff_eq_none.mp hs)

theorem lookupKey_setKey_ne {α : Type} (d : List (String × α)) (k k' : String)
    (v : α) (h : k' ≠ k) : lookupKey (setKey d k v) k' = lookupKey d k' := by
  unfold setKey
  by_cases hs : (lookupKey d k).isSome
  · rw [if_pos hs]
    exact lookupKey_replaceKey_ne d k k' v h
  · rw [if_neg hs]
    exact lookupKey_append_single d k k' v h

theorem replaceKey_replaceKey_same {α : Type} (d : List (String × α))
    (k : String) (v : α) :
    replaceKey (replaceKey d k v) k v = replaceKey d k v := by
  induction d with
  | nil => rfl
  | cons p rest ih =>
    obtain ⟨k₁, w⟩ := p
    by_cases hk : k₁ = k
    · simp [replaceKey, hk, ih]
    · simp [replaceKey, hk, ih]

theorem setKey_setKey_same {α : Type} (d : List (String × α)) (k : String)
    (v : α) : setKey (setKey d k v) k v = setKey d k v := by
  by_cases h : (lookupKey d k).isSome
  · have e1 : setKey d k v = replaceKey d k v := if_pos h
    have h2 : (lookupKey (replaceKey d k v) k).isSome := by
      rw [lookupKey_replaceKey_eq d k v h]; rfl
    have e2 : setKey (replaceKey d k v) k v = replaceKey (replaceKey d k v) k v :=
      if_pos h2
    rw [e1, e2, replaceKey_replaceKey_same]
  · have hn : lookupKey d k = none := Option.not_isSome_iff_eq_none.mp h
    have e1 : setKey d k v = d ++ [(k, v)] := if_neg h
    have h2 : (lookupKey (d ++ [(k, v)]) k).isSome := by
      rw [lookupKey_append_self d k v hn]; rfl
    have e2 : setKey (d ++ [(k, v)]) k v = replaceKey (d ++ [(k, v)]) k v :=
      if_pos h2
    rw [e1, e2, replaceKey_append_self d k v hn]


/-! ## Preservation of the overlay property -/

theorem overlayOK_audit (c : Case) (a : List AuditEntry) (h : overlayOK c) :
    overlayOK { c with audit := a } := by
  intro e he f hf
  exact h e he f hf

theorem overlayOK_created (d : IntakeData) (st : String)
    (a : List AuditEntry) :
    overlayOK { data := d, ocr := none, status := st, audit := a,
                overrides := [], working := [] } := by
  intro e he
  exact absurd he (by simp)

theorem overlayOK_extracted (c : Case) (a : List AuditEntry) :
    overlayOK { c with
      ocr := some ⟨extractedFields c.data, ocrConfidence⟩
      working := [("new_address", .str c.data.new_address_raw),
                  ("move_in_date", .str c.data.move_in_date_raw)]
      audit := a } := by
  intro e he f hf
  have he' : e = ⟨extractedFields c.data, ocrConfidence⟩ := by
    simpa using he.symm
  subst he'
  have hna : ("citizen_name" : String) ≠ "new_address" := by decide
  rcases hf with rfl | rfl
  · constructor
    · intro _
      simp [lookupKey, extractedFields]
    · intro v _
      right
      simp [lookupKey, extractedFields]
  · constructor
    · intro _
      simp [lookupKey, extractedFields]
    · intro v _
      right
      simp [lookupKey, extractedFields]

theorem overlayOK_resolve (c : Case) (v : String) (a : List AuditEntry)
    (h : overlayOK c) :
    overlayOK { c with
      working := setKey c.working "new_address" (.str v)
      overrides := setKey c.overrides "new_address" (.str v)
      audit := a } := by
  intro e he f hf
  rcases hf with rfl | rfl
  · constructor
    · intro hnone
      rw [lookupKey_setKey_eq] at hnone
      exact absurd hnone (by simp)
    · intro w hw
      rw [lookupKey_setKey_eq] at hw
      left
      rw [lookupKey_setKey_eq]
      exact congrArg some (by injection hw)
  · have hne : ("move_in_date" : String) ≠ "new_address" := by decide
    have hov := h e he "move_in_date" (Or.inr rfl)
    constructor
    · intro hnone
      rw [lookupKey_setKey_ne _ _ _ _ hne] at hnone
      rw [lookupKey_setKey_ne _ _ _ _ hne]
      exact hov.1 hnone
    · intro w hw
      rw [lookupKey_setKey_ne _ _ _ _ hne] at hw
      rw [lookupKey_setKey_ne _ _ _ _ hne]
      exact hov.2 w hw

theorem storeOK_setKey (s : Store) (id : String) (c : Case)
    (hs : storeOK s) (hc : overlayOK c) : storeOK (setKey s id c) := by
  intro id' c' h'
  by_cases hid : id' = id
  · subst hid
    rw [lookupKey_setKey_eq] at h'
    rw [(by injection h' : c = c')] at hc
    exact hc
  · rw [lookupKey_setKey_ne _ _ _ _ hid] at h'
    exact hs id' c' h'

theorem storeOK_empty : storeOK ([] : Store) := by
  intro id c h
  cases h

theorem storeOK_applyCmd (s : Store) (cmd : Cmd) (hs : storeOK s) :
    storeOK (applyCmd s cmd) := by
  cases cmd with
  | ingest d =>
    simp only [applyCmd, ingest_case]
    exact storeOK_setKey _ _ _ hs (overlayOK_created d "created" _)
  | extract id =>
    cases hl : lookupKey s id with
    | none => simpa only [applyCmd, run_ocr_extract, hl] using hs
    | some c =>
      simp only [applyCmd, run_ocr_extract, hl]
      exact storeOK_setKey _ _ _ hs (overlayOK_extracted c _)
  | checkComp id =>
    cases hl : lookupKey s id with
    | none => simpa only [applyCmd, check_completeness, hl] using hs
    | some c =>
      cases ho : c.ocr with
      | none => simpa only [applyCmd, check_completeness, hl, ho] using hs
      | some e =>
        simp only [applyCmd, check_completeness, hl, ho]
        rw [← ho]
        exact storeOK_setKey _ _ _ hs (overlayOK_audit c _ (hs id c hl))
  | resolveHitl id v =>
    cases hl : lookupKey s id with
    | none => simpa only [applyCmd, resolve_hitl_update_address, hl] using hs
    | some c =>
      cases hw : lookupKey c.working "new_address" with
      | none =>
        simpa only [applyCmd, resolve_hitl_update_address, hl, hw] using hs
      | some old =>
        simp only [applyCmd, resolve_hitl_update_address, hl, hw]
        exact storeOK_setKey _ _ _ hs (overlayOK_resolve c v _ (hs id c hl))
  | matchIdent id =>
    cases hl : lookupKey s id with
    | none => simpa only [applyCmd, match_registry_identity, hl] using hs
    | some c =>
      simp only [applyCmd, match_registry_identity, hl]
      exact storeOK_setKey _ _ _ hs (overlayOK_audit c _ (hs id c hl))
  | validateLandlord id =>
    cases hl : lookupKey s id with
    | none => simpa only [applyCmd, validate_landlord_confirmation, hl] using hs
    | some c =>
      simp only [applyCmd, validate_landlord_confirmation, hl]
      exact storeOK_setKey _ _ _ hs (overlayOK_audit c _ (hs id c hl))
  | canonAddr id =>
    cases hl : lookupKey s id with
    | none => simpa only [applyCmd, canonicalize_address, hl] using hs
    | some c =>
      cases hw : lookupKey c.working "new_address" with
      | none => simpa only [applyCmd, canonicalize_address, hl, hw] using hs
      | some input =>
        simp only [applyCmd, canonicalize_address, hl, hw]
        exact storeOK_setKey _ _ _ hs (overlayOK_audit c _ (hs id c hl))
  | checkRules id =>
    cases hl : lookupKey s id with
    | none => simpa only [applyCmd, check_business_rules, hl] using hs
    | some c =>
      simp only [applyCmd, check_business_rules, hl]
      exact storeOK_setKey _ _ _ hs (overlayOK_audit c _ (hs id c hl))
  | updateReg id =>
    cases hl : lookupKey s id with
    | none => simpa only [applyCmd, update_registry, hl] using hs
    | some c =>
      simp only [applyCmd, update_registry, hl]
      exact storeOK_setKey _ _ _ hs (overlayOK_audit c _ (hs id c hl))
  | genCert id =>
    cases hl : lookupKey s id with
    | none => simpa only [applyCmd, generate_certificate, hl] using hs
    | some c =>
      simp only [applyCmd, generate_certificate, hl]
      exact storeOK_setKey _ _ _ hs (overlayOK_audit c _ (hs id c hl))
  | notifyCit id =>
    cases hl : lookupKey s id with
    | none => simpa only [applyCmd, notify_citizen, hl] using hs
    | some c =>
      simp only [applyCmd, notify_citizen, hl]
      exact storeOK_setKey _ _ _ hs (overlayOK_audit c _ (hs id c hl))
  | closeCase id =>
    cases hl : lookupKey s id with
    | none => simpa only [applyCmd, close_case_and_audit, hl] using hs
    | some c =>
      simp only [applyCmd, close_case_and_audit, hl]
      exact storeOK_setKey _ _ _ hs (overlayOK_audit c _ (hs id c hl))

theorem storeOK_foldl (cmds : List Cmd) (s : Store) (hs : storeOK s) :
    storeOK (cmds.foldl applyCmd s) := by
  induction cmds generalizing s with
  | nil => exact hs
  | cons cmd rest ih => exact ih _ (storeOK_applyCmd s cmd hs)

theorem storeOK_runCmds (cmds : List Cmd) : storeOK (runCmds cmds) :=
  storeOK_foldl cmds [] storeOK_empty

/-! ## Claim theorems -/

/-- C1 (amended): in every reachable store, for every case on which
extraction has run and every field extraction seeds into the working dict
(new_address and move_in_date), the working value equals the extracted
value when no override is recorded; when an override is recorded the
working value equals the override, or equals the freshly extracted value in
the states where run_ocr_extract re-ran after the override and discarded
the overlay. -/
theorem working_overlay_after_extraction (cmds : List Cmd) (id : String)
    (c : Case) (e : Extraction) (f : String)
    (hc : lookupKey (runCmds cmds) id = some c) (he : c.ocr = some e)
    (hf : f = "new_address" ∨ f = "move_in_date") :
    overlayAfterExtraction c e f :=
  storeOK_runCmds cmds id c hc e he f hf

/-- C1 counterexample: after ingest, extraction, an override, and a second
extraction on the demo case, an override for new_address is present yet the
working value is the re-extracted raw address, not the override — so the
claimed invariant does not hold at every point after extraction. -/
theorem working_overlay_reextract_cex :
    overrideVal storeReextracted "CASE-0001" "new_address" =
      some (.str correctedAddr) ∧
    extractionVal storeReextracted "CASE-0001" "new_address" =
      some (.str "Musterstr 12a KL 12345") ∧
    workingVal storeReextracted "CASE-0001" "new_address" =
      some (.str "Musterstr 12a KL 12345") ∧
    workingVal storeReextracted "CASE-0001" "new_address" ≠
      overrideVal storeReextracted "CASE-0001" "new_address" := by
  refine ⟨rfl, rfl, rfl, by decide⟩

/-- C1 witness: the amended overlay property at the concrete demo store
after ingest and extraction, for the new_address field. -/
theorem working_overlay_after_extraction_witness :
    lookupKey (runCmds [Cmd.ingest demoPayload, Cmd.extract "CASE-0001"])
      "CASE-0001" = some caseExtracted ∧
    caseExtracted.ocr = some extrDemo ∧
    overlayAfterExtraction caseExtracted extrDemo "new_address" :=
  ⟨by decide, rfl,
   working_overlay_after_extraction
     [Cmd.ingest demoPayload, Cmd.extract "CASE-0001"] "CASE-0001"
     caseExtracted extrDemo "new_address" (by decide) rfl (Or.inl rfl)⟩

/-- C8: every ingest_case call succeeds, returns the generated identifier,
and stores a case with no ocr, empty overrides, empty working, status
created, and exactly the single case-created audit entry. -/
theorem ingest_case_creates_fresh_case (s : Store) (d : IntakeData) :
    (ingest_case s d).2.case_id = "CASE-" ++ pad4 (s.length + 1) ∧
    (ingest_case s d).2.message = "Case created." ∧
    lookupKey (ingest_case s d).1 ((ingest_case s d).2.case_id) = some
      { data := d, ocr := none, status := "created",
        audit := [⟨"ingest_case", .text "Case created with citizen data."⟩],
        overrides := [], working := [] } := by
  refine ⟨rfl, rfl, ?_⟩
  exact lookupKey_setKey_eq _ _ _

/-- C2 (amended): close_case_and_audit on an existing case returns a payload
whose status is the string closed together with the appended audit log, but
the stored case record's status field keeps its previous value; the store is
never marked closed. -/
theorem close_keeps_stored_status (s : Store) (id : String) (c : Case)
    (hc : lookupKey s id = some c) : closeKeepsStoredStatus s id c := by
  refine ⟨?_, ?_, ?_⟩
  · simp only [close_case_and_audit, hc, closeEntry]
  · exact lookupKey_setKey_eq _ _ _
  · unfold statusOf
    rw [lookupKey_setKey_eq]
    rfl

/-- C2 counterexample: on the freshly ingested demo case, the close call
succeeds and returns status closed, yet the stored record's status is still
created afterwards. -/
theorem close_does_not_mark_closed_cex :
    close_case_and_audit storeCreated "CASE-0001" =
      Except.ok (applyCmd storeCreated (.closeCase "CASE-0001"),
        ⟨"closed", auditOf (applyCmd storeCreated (.closeCase "CASE-0001"))
          "CASE-0001"⟩) ∧
    statusOf (applyCmd storeCreated (.closeCase "CASE-0001")) "CASE-0001" =
      some "created" ∧
    statusOf (applyCmd storeCreated (.closeCase "CASE-0001")) "CASE-0001" ≠
      some "closed" := by
  refine ⟨rfl, rfl, by decide⟩

/-- C2 witness: the amended closing behavior at the freshly ingested demo
case. -/
theorem close_keeps_stored_status_witness :
    lookupKey storeCreated "CASE-0001" = some caseCreated ∧
    closeKeepsStoredStatus storeCreated "CASE-0001" caseCreated :=
  ⟨by decide,
   close_keeps_stored_status storeCreated "CASE-0001" caseCreated (by decide)⟩

/-- C9: the audit log returned by close_case_and_audit on an existing case
equals the stored case's post-append audit list (the Python return value
aliases the live list) and therefore ends with the close event the call
itself appended. -/
theorem close_returns_live_audit (s : Store) (id : String) (c : Case)
    (hc : lookupKey s id = some c) : closeReturnsLiveAudit s id c := by
  refine ⟨setKey s id { c with audit := c.audit ++ [closeEntry] },
          ⟨"closed", c.audit ++ [closeEntry]⟩, ?_, rfl, ?_, ?_⟩
  · simp only [close_case_and_audit, hc, closeEntry]
  · exact ⟨{ c with audit := c.audit ++ [closeEntry] },
           lookupKey_setKey_eq _ _ _, rfl⟩
  · simp

/-- C9 witness: the live-audit behavior of closing at the freshly ingested
demo case. -/
theorem close_returns_live_audit_witness :
    lookupKey storeCreated "CASE-0001" = some caseCreated ∧
    closeReturnsLiveAudit storeCreated "CASE-0001" caseCreated :=
  ⟨by decide,
   close_returns_live_audit storeCreated "CASE-0001" caseCreated (by decide)⟩

/-- C10: the override operation invoked on an existing case whose working
dict has no new_address key (extraction has not run) fails on the pre-image
read with a KeyError and leaves the whole store — working, overrides and
audit included — unchanged. -/
theorem hitl_before_extraction_rejected (s : Store) (id v : String)
    (c : Case) (hc : lookupKey s id = some c)
    (hw : lookupKey c.working "new_address" = none) :
    hitlRejectedBeforeExtraction s id v := by
  constructor
  · simp only [resolve_hitl_update_address, hc, hw]
  · simp only [applyCmd, resolve_hitl_update_address, hc, hw]

/-- C10 witness: the rejection at the freshly ingested demo case, before
extraction has run. -/
theorem hitl_before_extraction_rejected_witness :
    lookupKey storeCreated "CASE-0001" = some caseCreated ∧
    lookupKey caseCreated.working "new_address" = none ∧
    hitlRejectedBeforeExtraction storeCreated "CASE-0001" correctedAddr :=
  ⟨by decide, rfl,
   hitl_before_extraction_rejected storeCreated "CASE-0001" correctedAddr
     caseCreated (by decide) rfl⟩

/-- C4: every operation that takes a case identifier fails immediately with
a KeyError when the identifier is not in the store, and applying any such
call leaves the entire store — hence every audit log — unchanged. -/
theorem unknown_case_id_rejected (s : Store) (id v : String)
    (h : lookupKey s id = none) : rejectsUnknownId s id v := by
  refine ⟨?_, ?_, ?_, ?_, ?_, ?_, ?_, ?_, ?_, ?_, ?_,
          ?_, ?_, ?_, ?_, ?_, ?_, ?_, ?_, ?_, ?_, ?_⟩
  · simp only [run_ocr_extract, h]
  · simp only [check_completeness, h]
  · simp only [resolve_hitl_update_address, h]
  · simp only [match_registry_identity, h]
  · simp only [validate_landlord_confirmation, h]
  · simp only [canonicalize_address, h]
  · simp only [check_business_rules, h]
  · simp only [update_registry, h]
  · simp only [generate_certificate, h]
  · simp only [notify_citizen, h]
  · simp only [close_case_and_audit, h]
  · simp only [applyCmd, run_ocr_extract, h]
  · simp only [applyCmd, check_completeness, h]
  · simp only [applyCmd, resolve_hitl_update_address, h]
  · simp only [applyCmd, match_registry_identity, h]
  · simp only [applyCmd, validate_landlord_confirmation, h]
  · simp only [applyCmd, canonicalize_address, h]
  · simp only [applyCmd, check_business_rules, h]
  · simp only [applyCmd, update_registry, h]
  · simp only [applyCmd, generate_certificate, h]
  · simp only [applyCmd, notify_citizen, h]
  · simp only [applyCmd, close_case_and_audit, h]

/-- C4 witness: the rejection of an identifier that the store (here the
store holding only the demo case) does not contain. -/
theorem unknown_case_id_rejected_witness :
    lookupKey storeCreated "CASE-9999" = none ∧
    rejectsUnknownId storeCreated "CASE-9999" correctedAddr :=
  ⟨by decide,
   unknown_case_id_rejected storeCreated "CASE-9999" correctedAddr (by decide)⟩

/-- C3: the end-to-end demo scenario — ingesting the demo payload yields
CASE-0001; extraction reports confidence 0.73 for new_address, which is
below 0.8; check_completeness reports hitl_required with exactly
new_address low-confidence; after the override with the corrected address,
working and overrides both hold the corrected string and the audit log
contains a hitl entry whose recorded old value is the raw address. -/
theorem e2e_demo_scenario :
    (ingest_case [] demoPayload).2.case_id = "CASE-0001" ∧
    run_ocr_extract storeCreated "CASE-0001" =
      Except.ok (storeExtracted, ⟨extractedFields demoPayload, ocrConfidence⟩) ∧
    lookupKey ocrConfidence "new_address" = some (mkRat 73 100) ∧
    mkRat 73 100 < mkRat 4 5 ∧
    check_completeness storeExtracted "CASE-0001" =
      Except.ok (storeChecked, ⟨"hitl_required", ["new_address"]⟩) ∧
    resolve_hitl_update_address storeChecked "CASE-0001" correctedAddr =
      Except.ok (storeResolved,
        ⟨"Address override applied", "CASE-0001",
         .str "Musterstr 12a KL 12345", correctedAddr,
         "You can now continue with match_registry_identity, etc."⟩) ∧
    workingVal storeResolved "CASE-0001" "new_address" =
      some (.str correctedAddr) ∧
    overrideVal storeResolved "CASE-0001" "new_address" =
      some (.str correctedAddr) ∧
    (⟨"resolve_hitl_update_address",
      .hitl (.str "Musterstr 12a KL 12345") correctedAddr "human_officer"⟩ :
        AuditEntry) ∈ auditOf storeResolved "CASE-0001" := by
  refine ⟨rfl, rfl, rfl, by decide, rfl, rfl, rfl, rfl, by decide⟩

/-- C5: for every case on which extraction has run, check_completeness
succeeds, reports hitl_required exactly when some confidence score is below
0.8 (and ok otherwise), and its low_conf_fields output is exactly the list
of fields whose confidence is below 0.8. -/
theorem check_completeness_threshold (s : Store) (id : String) (c : Case)
    (e : Extraction) (hc : lookupKey s id = some c) (he : c.ocr = some e) :
    completenessMatchesThreshold s id e := by
  have hres : check_completeness s id = Except.ok
      (setKey s id { c with audit := c.audit ++
        [⟨"check_completeness",
          .completeness
            (if ((e.confidence.filter (fun p => p.2 < mkRat 4 5)).map Prod.fst).isEmpty
             then "ok" else "hitl_required")
            ((e.confidence.filter (fun p => p.2 < mkRat 4 5)).map Prod.fst)⟩] },
       ⟨(if ((e.confidence.filter (fun p => p.2 < mkRat 4 5)).map Prod.fst).isEmpty
          then "ok" else "hitl_required"),
        (e.confidence.filter (fun p => p.2 < mkRat 4 5)).map Prod.fst⟩) := by
    simp only [check_completeness, hc, he]
  refine ⟨_, _, _, hres, ?_, ?_, ?_, rfl⟩
  · by_cases hE : ((e.confidence.filter (fun p => p.2 < mkRat 4 5)).map Prod.fst).isEmpty
    · exact Or.inr (by simp [hE])
    · exact Or.inl (by simp [hE])
  · by_cases hE : ((e.confidence.filter (fun p => p.2 < mkRat 4 5)).map Prod.fst).isEmpty
    · rw [if_pos hE]
      simp only [List.isEmpty_iff, List.map_eq_nil_iff, List.filter_eq_nil_iff] at hE
      constructor
      · intro hcontra
        exact absurd hcontra (by decide)
      · rintro ⟨p, hp, hlt⟩
        exact absurd hlt (by simpa using hE p hp)
    · rw [if_neg hE]
      simp only [List.isEmpty_iff, List.map_eq_nil_iff, List.filter_eq_nil_iff] at hE
      push_neg at hE
      obtain ⟨p, hp, hlt⟩ := hE
      exact ⟨fun _ => ⟨p, hp, by simpa using hlt⟩, fun _ => rfl⟩
  · intro f
    simp only [List.mem_map, List.mem_filter]
    constructor
    · rintro ⟨p, ⟨hp, hlt⟩, rfl⟩
      exact ⟨p.2, hp, by simpa using hlt⟩
    · rintro ⟨q, hq, hlt⟩
      exact ⟨(f, q), ⟨hq, by simpa using hlt⟩, rfl⟩

/-- C5 witness: the threshold behavior of check_completeness at the demo
case after extraction, where new_address has confidence 0.73. -/
theorem check_completeness_threshold_witness :
    lookupKey storeExtracted "CASE-0001" = some caseExtracted ∧
    caseExtracted.ocr = some extrDemo ∧
    completenessMatchesThreshold storeExtracted "CASE-0001" extrDemo :=
  ⟨by decide, rfl,
   check_completeness_threshold storeExtracted "CASE-0001" caseExtracted
     extrDemo (by decide) rfl⟩

/-- C6: on a case whose working dict holds new_address, two successive
overrides with corrected values v1 then v2 both succeed; afterwards working
and overrides hold only v2, while the audit log carries both hitl entries
in call order, each recording the pre-image its call observed. -/
theorem resolve_twice_last_wins (s : Store) (id v1 v2 : String) (c : Case)
    (w : Value) (hc : lookupKey s id = some c)
    (hw : lookupKey c.working "new_address" = some w) :
    lastOverrideWins s id v1 v2 c w := by
  have h1 : resolve_hitl_update_address s id v1 = Except.ok
      (setKey s id (hitlUpdate c w v1),
       ⟨"Address override applied", id, w, v1,
        "You can now continue with match_registry_identity, etc."⟩) := by
    simp only [resolve_hitl_update_address, hc]
    simp only [hw]
    rfl
  have hc1 : lookupKey (setKey s id (hitlUpdate c w v1)) id =
      some (hitlUpdate c w v1) := lookupKey_setKey_eq _ _ _
  have hw1 : lookupKey (hitlUpdate c w v1).working "new_address" =
      some (.str v1) := lookupKey_setKey_eq _ _ _
  have h2 : resolve_hitl_update_address (setKey s id (hitlUpdate c w v1)) id v2 =
      Except.ok
        (setKey (setKey s id (hitlUpdate c w v1)) id
          (hitlUpdate (hitlUpdate c w v1) (.str v1) v2),
         ⟨"Address override applied", id, .str v1, v2,
          "You can now continue with match_registry_identity, etc."⟩) := by
    simp only [resolve_hitl_update_address, hc1]
    simp only [hw1]
    rfl
  refine ⟨_, _, _, _, hitlUpdate (hitlUpdate c w v1) (.str v1) v2,
          h1, h2, lookupKey_setKey_eq _ _ _, ?_, ?_, ?_, rfl, rfl⟩
  · exact lookupKey_setKey_eq _ _ _
  · exact lookupKey_setKey_eq _ _ _
  · simp only [hitlUpdate, List.append_assoc, List.cons_append,
               List.nil_append]

/-- C6 witness: the last-override-wins behavior at the demo case after
extraction, with two distinct corrected addresses. -/
theorem resolve_twice_last_wins_witness :
    lookupKey storeExtracted "CASE-0001" = some caseExtracted ∧
    lookupKey caseExtracted.working "new_address" =
      some (.str "Musterstr 12a KL 12345") ∧
    lastOverrideWins storeExtracted "CASE-0001" "Musterstraße 12a"
      correctedAddr caseExtracted (.str "Musterstr 12a KL 12345") :=
  ⟨by decide, rfl,
   resolve_twice_last_wins storeExtracted "CASE-0001" "Musterstraße 12a"
     correctedAddr caseExtracted (.str "Musterstr 12a KL 12345")
     (by decide) rfl⟩

/-- C7: on a case whose working dict holds new_address, overriding twice
with the same corrected value succeeds both times and is a no-op in effect:
the case after the second call equals the case after the first except for
one extra audit entry, and the first call appended exactly one entry. -/
theorem resolve_twice_same_value_noop (s : Store) (id v : String) (c : Case)
    (w : Value) (hc : lookupKey s id = some c)
    (hw : lookupKey c.working "new_address" = some w) :
    sameOverrideTwiceNoOp s id v c w := by
  have h1 : resolve_hitl_update_address s id v = Except.ok
      (setKey s id (hitlUpdate c w v),
       ⟨"Address override applied", id, w, v,
        "You can now continue with match_registry_identity, etc."⟩) := by
    simp only [resolve_hitl_update_address, hc]
    simp only [hw]
    rfl
  have hc1 : lookupKey (setKey s id (hitlUpdate c w v)) id =
      some (hitlUpdate c w v) := lookupKey_setKey_eq _ _ _
  have hw1 : lookupKey (hitlUpdate c w v).working "new_address" =
      some (.str v) := lookupKey_setKey_eq _ _ _
  have h2 : resolve_hitl_update_address (setKey s id (hitlUpdate c w v)) id v =
      Except.ok
        (setKey (setKey s id (hitlUpdate c w v)) id
          (hitlUpdate (hitlUpdate c w v) (.str v) v),
         ⟨"Address override applied", id, .str v, v,
          "You can now continue with match_registry_identity, etc."⟩) := by
    simp only [resolve_hitl_update_address, hc1]
    simp only [hw1]
    rfl
  refine ⟨_, _, _, _, hitlUpdate c w v,
          hitlUpdate (hitlUpdate c w v) (.str v) v,
          h1, h2, lookupKey_setKey_eq _ _ _, lookupKey_setKey_eq _ _ _,
          ?_, rfl⟩
  simp only [hitlUpdate, setKey_setKey_same]

/-- C7 witness: the idempotence-in-effect behavior at the demo case after
extraction, overriding twice with the corrected address. -/
theorem resolve_twice_same_value_noop_witness :
    lookupKey storeExtracted "CASE-0001" = some caseExtracted ∧
    lookupKey caseExtracted.working "new_address" =
      some (.str "Musterstr 12a KL 12345") ∧
    sameOverrideTwiceNoOp storeExtracted "CASE-0001" correctedAddr
      caseExtracted (.str "Musterstr 12a KL 12345") :=
  ⟨by decide, rfl,
   resolve_twice_same_value_noop storeExtracted "CASE-0001" correctedAddr
     caseExtracted (.str "Musterstr 12a KL 12345") (by decide) rfl⟩

end AddressChange
